import Mathlib

/-!
Shallow embedding of the Key Set Detail Controller
(`ios/PolkadotVault/Screens/KeyDetails/Views/KeyDetails+ViewModel.swift`).

The view model's published fields become a state record; each Swift method
becomes a state-transformer function.  Asynchronous service calls
(`KeyDetailsService.getKeys`, `GetAllNetworksService.getNetworks`,
`SeedsMediating.removeSeed`, `KeyDetailsActionService.navigateToPublicKey`)
are modelled by passing the delivered result as an explicit argument, so a
function application corresponds to "the callback ran with this result".
-/

/-- Address data reachable from a key card: `address.path` (derivation path)
and `address.seedName` are the two fields the view model reads. -/
structure Address where
  seedName : String
  path : String
deriving DecidableEq

/-- Key part of a key-and-network card; the view model reads `key.address`. -/
structure MKeyCard where
  address : Address
deriving DecidableEq

/-- Network part of a key-and-network card; the view model reads
`network.networkSpecsKey`. -/
structure MNetworkCard where
  networkSpecsKey : String
deriving DecidableEq

/-- Modelled from the spec: a derived-key record ("derivation path, a network
identifier, a public-key representation"); the concrete Swift struct
`MKeyAndNetworkCard` and its `publicKeyDetails` accessor are defined outside
the provided sources, so `publicKeyDetails` is kept as an opaque string
field. -/
structure MKeyAndNetworkCard where
  key : MKeyCard
  network : MNetworkCard
  publicKeyDetails : String
deriving DecidableEq

/-- Root key card: the view model reads `root?.address.seedName` and
`root?.base58`. -/
structure MAddressCard where
  address : Address
  base58 : String
deriving DecidableEq

/-- Key set as delivered by `KeyDetailsService.getKeys`: optional root plus
the collection of derived-key records (`keysData.set`). -/
structure MKeysNew where
  root : Option MAddressCard
  set : List MKeyAndNetworkCard
deriving DecidableEq

/-- Modelled from the spec: an element of the shared selected-networks set
("a set of selected network identifiers"); the Swift type behind
`appState.userData.selectedNetworks` is outside the provided sources, and the
view model only reads its `key` field (`.map(\.key)`). -/
structure MmNetwork where
  key : String
deriving DecidableEq

/-- Modelled from the spec: the navigation target returned by
`navigateToPublicKey` ("resolveNavigationTarget … -> optional<KeyDetails>");
its contents are opaque to the controller, which stores it wholesale. -/
structure MKeyDetails where
  payload : String
deriving DecidableEq

/-- Modelled from the spec: the "precomputed display view-model" of a row.
The Swift initializer `DerivedKeyRowViewModel($0)` is outside the provided
sources; the view model reads back only its `path` field
(`derivedKey.viewModel.path`), which mirrors the record's derivation path. -/
structure DerivedKeyRowViewModel where
  path : String
deriving DecidableEq

/-- Construction of the display view-model from a card, keeping the card's
derivation path. -/
def DerivedKeyRowViewModel.ofCard (c : MKeyAndNetworkCard) : DerivedKeyRowViewModel :=
  { path := c.key.address.path }

/-- Row model built in `refreshDerivedKeys`: the record, its display
view-model and the public-key detail string. -/
structure DerivedKeyRowModel where
  keyData : MKeyAndNetworkCard
  viewModel : DerivedKeyRowViewModel
  publicKeyDetails : String
deriving DecidableEq

/-- Summary built in `refreshKeySummary` from the root key only. -/
structure KeySummaryViewModel where
  keyName : String
  base58 : String
deriving DecidableEq

/-- View state of the screen: `derivedKeys.isEmpty ? .emptyState : .list`. -/
inductive ViewState where
  | emptyState
  | list
deriving DecidableEq

/-- One-shot completion action sent to the parent. -/
inductive OnCompletionAction where
  | keySetDeleted
deriving DecidableEq

/-- Error bottom modal payload: the default `.noNetworksAvailable()` and the
`.alertError(message:)` used on provider failures. -/
inductive ErrorBottomModalViewModel where
  | noNetworksAvailable
  | alertError (message : String)
deriving DecidableEq

/-- Published fields of `KeyDetailsView.ViewModel` that the specified
operations read or write, plus the shared app state it consults
(`appState.userData.selectedNetworks` / `allNetworks`). -/
structure ViewModelState where
  keyName : String
  keysData : Option MKeysNew
  selectedNetworks : List MmNetwork
  allNetworks : List MmNetwork
  derivedKeys : List DerivedKeyRowModel
  selectedKeys : List DerivedKeyRowModel
  keySummary : Option KeySummaryViewModel
  viewState : ViewState
  isFilteringActive : Bool
  isPresentingError : Bool
  presentableError : ErrorBottomModalViewModel
  isPresentingSelectionOverlay : Bool
  isPresentingNetworkSelection : Bool
  isPresentingKeyDetails : Bool
  presentedKeyDetails : Option MKeyDetails
  presentedPublicKeyDetails : Option String
  removeSeed : String
deriving DecidableEq

/-- Lexicographic comparison of character lists: the order Swift's `<` on
`String` applies to the derivation paths in `refreshDerivedKeys`. -/
def charListLt : List Char → List Char → Bool
  | [], [] => false
  | [], _ :: _ => true
  | _ :: _, [] => false
  | a :: as, b :: bs => if a < b then true else if b < a then false else charListLt as bs

/-- Strict lexicographic order on strings, by their character data. -/
def strLt (a b : String) : Bool :=
  charListLt a.data b.data

/-- Sort relation of `keysData.set.sorted(by: { $0.key.address.path < $1.key.address.path })`:
Swift's `sorted(by:)` is a stable sort by the strict comparator, which is the
stable sort by its reflexive closure `¬(b < a)`. -/
def pathLe (a b : MKeyAndNetworkCard) : Prop :=
  strLt b.key.address.path a.key.address.path = false

instance : DecidableRel pathLe :=
  fun a b => Bool.decEq (strLt b.key.address.path a.key.address.path) false

/-- Row construction performed in the `map` step of `refreshDerivedKeys`. -/
def rowOfCard (c : MKeyAndNetworkCard) : DerivedKeyRowModel :=
  { keyData := c
    viewModel := DerivedKeyRowViewModel.ofCard c
    publicKeyDetails := c.publicKeyDetails }

/-- Pure core of `refreshDerivedKeys` (lines 308–327): sort the records by
derivation path, filter by the selected networks unless that set is empty,
then map each retained record to a row model. -/
def computeDerivedKeys (keysData : MKeysNew) (selectedNetworks : List MmNetwork) :
    List DerivedKeyRowModel :=
  let sortedDerivedKeys := List.insertionSort pathLe keysData.set
  let filteredKeys :=
    if selectedNetworks.isEmpty then sortedDerivedKeys
    else sortedDerivedKeys.filter fun card =>
      (selectedNetworks.map MmNetwork.key).contains card.network.networkSpecsKey
  filteredKeys.map rowOfCard

/-- Embedding of `refreshDerivedKeys`: a guard on `keysData`, then the
projection, then `viewState = derivedKeys.isEmpty ? .emptyState : .list`. -/
def refreshDerivedKeys (s : ViewModelState) : ViewModelState :=
  match s.keysData with
  | none => s
  | some keysData =>
      let derivedKeys := computeDerivedKeys keysData s.selectedNetworks
      { s with
        derivedKeys := derivedKeys
        viewState := if derivedKeys.isEmpty then ViewState.emptyState else ViewState.list }

/-- Pure core of `refreshKeySummary`: summary data computed from the root
key, with `""` defaults for a missing root. -/
def computeKeySummary (keysData : MKeysNew) : KeySummaryViewModel :=
  { keyName := (keysData.root.map fun r => r.address.seedName).getD ""
    base58 := (keysData.root.map fun r => r.base58).getD "" }

/-- Embedding of `refreshKeySummary`: a guard on `keysData`, then the summary
and the remembered seed name for removal. -/
def refreshKeySummary (s : ViewModelState) : ViewModelState :=
  match s.keysData with
  | none => s
  | some keysData =>
      { s with
        keySummary := some (computeKeySummary keysData)
        removeSeed := (keysData.root.map fun r => r.address.seedName).getD "" }

/-- Embedding of `refreshNetworks`, with the delivered `getNetworks` result as
argument: success replaces the shared network universe; failure sets the
error modal and flag. -/
def refreshNetworks (result : Except String (List MmNetwork)) (s : ViewModelState) :
    ViewModelState :=
  match result with
  | Except.ok networks => { s with allNetworks := networks }
  | Except.error e =>
      { s with
        presentableError := ErrorBottomModalViewModel.alertError e
        isPresentingError := true }

/-- Embedding of `updateRenderables`: `refreshDerivedKeys`, then
`refreshKeySummary`, then `refreshNetworks`. -/
def updateRenderables (networksResult : Except String (List MmNetwork))
    (s : ViewModelState) : ViewModelState :=
  refreshNetworks networksResult (refreshKeySummary (refreshDerivedKeys s))

/-- Embedding of `refreshData`, with the delivered `getKeys` result as
argument: success stores the key set and re-renders; failure sets the error
modal and flag and touches nothing else. -/
def refreshData (keysResult : Except String MKeysNew)
    (networksResult : Except String (List MmNetwork)) (s : ViewModelState) :
    ViewModelState :=
  match keysResult with
  | Except.ok keysData => updateRenderables networksResult { s with keysData := some keysData }
  | Except.error e =>
      { s with
        presentableError := ErrorBottomModalViewModel.alertError e
        isPresentingError := true }

/-- Assignment to the published `isPresentingNetworkSelection`, including the
two sinks subscribed in `use(appState:)` and `subscribeToNetworkChanges`: when
the new value is `false`, recompute `isFilteringActive` from the selected
networks and re-run `refreshDerivedKeys`; when it is `true`, both sinks
return early. -/
def setIsPresentingNetworkSelection (newValue : Bool) (s : ViewModelState) :
    ViewModelState :=
  let s1 := { s with isPresentingNetworkSelection := newValue }
  if newValue then s1
  else refreshDerivedKeys { s1 with isFilteringActive := !s1.selectedNetworks.isEmpty }

/-- Dismissal of the network-selection overlay: the published flag becomes
`false`, firing both sinks. -/
def onNetworkSelectionDismissed (s : ViewModelState) : ViewModelState :=
  setIsPresentingNetworkSelection false s

/-- Embedding of `onNetworkSelectionTap`, with the delivered `getNetworks`
result as argument: `if case let .success(networks)` stores the networks and
opens the overlay; any other result is ignored. -/
def onNetworkSelectionTap (result : Except String (List MmNetwork))
    (s : ViewModelState) : ViewModelState :=
  match result with
  | Except.ok networks =>
      setIsPresentingNetworkSelection true { s with allNetworks := networks }
  | Except.error _ => s

/-- Embedding of `onRemoveKeySetConfirmationTap`, with the seed-removal
collaborator as argument.  Returns the new state, whether the dismiss signal
was sent, and the completion action sent (if any).  `forgetKeySetAction` is a
fire-and-forget external call with no state effect. -/
def onRemoveKeySetConfirmationTap (removeSeedAction : String → Bool)
    (s : ViewModelState) : ViewModelState × Bool × Option OnCompletionAction :=
  let isRemoved := removeSeedAction s.removeSeed
  if isRemoved then (s, true, some OnCompletionAction.keySetDeleted)
  else (s, false, none)

/-- Embedding of `onDerivedKeyTap`, with the `navigateToPublicKey`
collaborator as argument: in selection mode, toggle membership of the row in
`selectedKeys`; otherwise ask the collaborator for a navigation target and
either present it or do nothing. -/
def onDerivedKeyTap (navigateToPublicKey : String → String → Option MKeyDetails)
    (deriveKey : DerivedKeyRowModel) (s : ViewModelState) : ViewModelState :=
  if s.isPresentingSelectionOverlay then
    if s.selectedKeys.contains deriveKey then
      { s with selectedKeys := s.selectedKeys.filter fun k => k != deriveKey }
    else
      { s with selectedKeys := s.selectedKeys ++ [deriveKey] }
  else
    match navigateToPublicKey s.keyName deriveKey.publicKeyDetails with
    | none => s
    | some keyDetails =>
        { s with
          presentedPublicKeyDetails := some deriveKey.publicKeyDetails
          presentedKeyDetails := some keyDetails
          isPresentingKeyDetails := true }

/-- Initial published-field values of the view model, as declared on the
`@Published` properties, before `init` runs `updateRenderables` and
`refreshData`. -/
def initialState (keyName : String) (keysData : Option MKeysNew)
    (selectedNetworks allNetworks : List MmNetwork) : ViewModelState where
  keyName := keyName
  keysData := keysData
  selectedNetworks := selectedNetworks
  allNetworks := allNetworks
  derivedKeys := []
  selectedKeys := []
  keySummary := none
  viewState := ViewState.list
  isFilteringActive := false
  isPresentingError := false
  presentableError := ErrorBottomModalViewModel.noNetworksAvailable
  isPresentingSelectionOverlay := false
  isPresentingNetworkSelection := false
  isPresentingKeyDetails := false
  presentedKeyDetails := none
  presentedPublicKeyDetails := none
  removeSeed := ""

/-- Definition following the spec's words for §4.1 step 2, used to compare
the code's projection against the spec: "If NetworkFilter is empty, retain
all records; otherwise retain only records whose network identifier is a
member of NetworkFilter" (before sorting). -/
def specRetainedRecords (keysData : MKeysNew) (selectedNetworks : List MmNetwork) :
    List MKeyAndNetworkCard :=
  if selectedNetworks.isEmpty then keysData.set
  else keysData.set.filter fun card =>
    (selectedNetworks.map MmNetwork.key).contains card.network.networkSpecsKey

/-- Sample card builder for concrete scenarios. -/
def mkCard (path networkKey publicKey : String) : MKeyAndNetworkCard :=
  { key := { address := { seedName := "Seed", path := path } }
    network := { networkSpecsKey := networkKey }
    publicKeyDetails := publicKey }

/-- Sample root card for concrete scenarios. -/
def exampleRoot : MAddressCard :=
  { address := { seedName := "Seed", path := "" }, base58 := "root58" }

/-- Key set of the spec scenario with derived paths `["//1","//0","//2"]`. -/
def exampleKeysC1 : MKeysNew :=
  { root := some exampleRoot
    set := [mkCard "//1" "A" "pk1", mkCard "//0" "B" "pk0", mkCard "//2" "A" "pk2"] }

/-- Controller state holding the `["//1","//0","//2"]` key set with an empty
network filter. -/
def exampleStateC1 : ViewModelState :=
  initialState "Seed" (some exampleKeysC1) [] []

/-- Controller state with no key-set data and default published values. -/
def exampleStateEmpty : ViewModelState :=
  initialState "Seed" none [] []

/-- Sample derived-key row used in selection/navigation scenarios. -/
def exampleRow : DerivedKeyRowModel :=
  rowOfCard (mkCard "//0" "B" "pk0")

/-- Controller state in selection mode with no key selected yet. -/
def exampleStateSelection : ViewModelState :=
  { exampleStateEmpty with isPresentingSelectionOverlay := true }

/-- Key set of the spec scenario with two derived keys on networks `{A,B}`. -/
def exampleKeysC9 : MKeysNew :=
  { root := some exampleRoot
    set := [mkCard "//a" "A" "pkA", mkCard "//b" "B" "pkB"] }

/-- Controller state for the network-filter scenario: the `{A,B}` key set,
NetworkFilter `{A}`, and the network-selection overlay currently open. -/
def exampleStateC9 : ViewModelState :=
  { initialState "Seed" (some exampleKeysC9) [{ key := "A" }] [] with
      isPresentingNetworkSelection := true }

/-- Lexicographic comparison agrees with Mathlib's `List.Lex` strict order on
character lists. -/
theorem charListLt_iff : ∀ (a b : List Char), charListLt a b = true ↔ List.Lex (· < ·) a b
  | [], [] =>
      ⟨fun h => Bool.noConfusion h, fun h => absurd h (List.Lex.not_nil_right _ _)⟩
  | [], _ :: _ =>
      ⟨fun _ => List.Lex.nil, fun _ => rfl⟩
  | _ :: _, [] =>
      ⟨fun h => Bool.noConfusion h, fun h => absurd h (List.Lex.not_nil_right _ _)⟩
  | a :: as, b :: bs => by
      simp only [charListLt]
      rcases lt_trichotomy a b with hab | hab | hab
      · rw [if_pos hab]
        exact ⟨fun _ => List.Lex.rel hab, fun _ => rfl⟩
      · subst hab
        rw [if_neg (lt_irrefl a), if_neg (lt_irrefl a)]
        constructor
        · intro h
          exact List.Lex.cons ((charListLt_iff as bs).mp h)
        · intro h
          cases h with
          | cons h2 => exact (charListLt_iff as bs).mpr h2
          | rel h2 => exact absurd h2 (lt_irrefl a)
      · rw [if_neg (lt_asymm hab), if_pos hab]
        constructor
        · intro h
          exact Bool.noConfusion h
        · intro h
          cases h with
          | cons h2 => exact absurd hab (lt_irrefl _)
          | rel h2 => exact absurd h2 (lt_asymm hab)

/-- Falsity of the strict string comparison says the first string is not
lexicographically greater: the reflexive closure used as sort relation. -/
theorem strLt_false_iff (a b : String) :
    strLt a b = false ↔ ¬ List.Lex (· < ·) a.data b.data := by
  rw [← Bool.not_eq_true]
  exact not_congr (charListLt_iff a.data b.data)

/-- Totality of the reflexive closure of the lexicographic order. -/
theorem lexLe_total (x y : List Char) :
    ¬ List.Lex (· < ·) x y ∨ ¬ List.Lex (· < ·) y x := by
  have ha : IsAsymm (List Char) (List.Lex (· < ·)) := inferInstance
  by_cases h : List.Lex (· < ·) x y
  · exact Or.inr (ha.1 x y h)
  · exact Or.inl h

/-- Transitivity of the reflexive closure of the lexicographic order. -/
theorem lexLe_trans {x y z : List Char} (h1 : ¬ List.Lex (· < ·) y x)
    (h2 : ¬ List.Lex (· < ·) z y) : ¬ List.Lex (· < ·) z x := by
  have ht : IsTrichotomous (List Char) (List.Lex (· < ·)) := inferInstance
  have htr : IsTrans (List Char) (List.Lex (· < ·)) := inferInstance
  intro hzx
  rcases ht.1 z y with hzy | heq | hyz
  · exact h2 hzy
  · exact h1 (heq ▸ hzx)
  · exact h1 (htr.1 y z x hyz hzx)

instance : IsTrans MKeyAndNetworkCard pathLe :=
  ⟨fun a b c h1 h2 => by
    simp only [pathLe, strLt_false_iff] at h1 h2 ⊢
    exact lexLe_trans h1 h2⟩

instance : IsTotal MKeyAndNetworkCard pathLe :=
  ⟨fun a b => by
    simp only [pathLe, strLt_false_iff]
    exact lexLe_total _ _⟩

/-- Paths of the projected rows are pairwise in non-decreasing lexicographic
order, for any key set and network filter. -/
theorem computeDerivedKeys_sorted (kd : MKeysNew) (sel : List MmNetwork) :
    List.Pairwise (fun p q : String => strLt q p = false)
      ((computeDerivedKeys kd sel).map fun row => row.viewModel.path) := by
  have hsorted : List.Pairwise pathLe (List.insertionSort pathLe kd.set) :=
    List.sorted_insertionSort pathLe kd.set
  have key : ∀ l : List MKeyAndNetworkCard, List.Pairwise pathLe l →
      List.Pairwise (fun p q : String => strLt q p = false)
        ((l.map rowOfCard).map fun row => row.viewModel.path) := by
    intro l hl
    rw [List.map_map]
    exact List.pairwise_map.mpr hl
  unfold computeDerivedKeys
  by_cases hsel : sel.isEmpty
  · simp only [if_pos hsel]
    exact key _ hsorted
  · simp only [if_neg hsel]
    exact key _ (List.Pairwise.sublist (List.filter_sublist _) hsorted)

/-- Projected rows are a permutation of the spec's retained records, mapped
to rows. -/
theorem computeDerivedKeys_perm (kd : MKeysNew) (sel : List MmNetwork) :
    (computeDerivedKeys kd sel).Perm ((specRetainedRecords kd sel).map rowOfCard) := by
  have hperm : (List.insertionSort pathLe kd.set).Perm kd.set :=
    List.perm_insertionSort pathLe kd.set
  unfold computeDerivedKeys specRetainedRecords
  by_cases hsel : sel.isEmpty
  · simp only [if_pos hsel]
    exact hperm.map rowOfCard
  · simp only [if_neg hsel]
    exact (hperm.filter _).map rowOfCard

/-- With a stored key set, `refreshDerivedKeys` installs the projection of
that key set under the current network filter. -/
theorem refreshDerivedKeys_derivedKeys (s : ViewModelState) (kd : MKeysNew)
    (h : s.keysData = some kd) :
    (refreshDerivedKeys s).derivedKeys = computeDerivedKeys kd s.selectedNetworks := by
  simp [refreshDerivedKeys, h]

/-- C1: the derived-key projection yields the key-set records sorted by
derivation path in lexicographic string order, restricted to the network
filter when it is non-empty, and mapped to rows; in particular the paths
`["//1","//0","//2"]` with an empty filter yield rows ordered
`["//0","//1","//2"]`. -/
theorem c1_derived_key_projection :
    (∀ (s : ViewModelState) (kd : MKeysNew), s.keysData = some kd →
      List.Pairwise (fun p q : String => strLt q p = false)
        (((refreshDerivedKeys s).derivedKeys).map fun row => row.viewModel.path)
      ∧ ((refreshDerivedKeys s).derivedKeys).Perm
          ((specRetainedRecords kd s.selectedNetworks).map rowOfCard))
    ∧ ((refreshDerivedKeys exampleStateC1).derivedKeys.map fun row => row.viewModel.path)
        = ["//0", "//1", "//2"] := by
  constructor
  · intro s kd h
    rw [refreshDerivedKeys_derivedKeys s kd h]
    exact ⟨computeDerivedKeys_sorted kd s.selectedNetworks,
           computeDerivedKeys_perm kd s.selectedNetworks⟩
  · decide

/-- Witness for C1 at the concrete `["//1","//0","//2"]` state. -/
theorem c1_derived_key_projection_witness :
    List.Pairwise (fun p q : String => strLt q p = false)
      (((refreshDerivedKeys exampleStateC1).derivedKeys).map fun row => row.viewModel.path)
    ∧ ((refreshDerivedKeys exampleStateC1).derivedKeys).Perm
        ((specRetainedRecords exampleKeysC1 exampleStateC1.selectedNetworks).map rowOfCard) :=
  c1_derived_key_projection.1 exampleStateC1 exampleKeysC1 rfl

/-- C2: a failed key-set fetch surfaces the error flag and message and leaves
the stored key set, the derived-key rows and the key summary unchanged. -/
theorem c2_refresh_failure_keeps_stale_data (s : ViewModelState) (e : String)
    (netResult : Except String (List MmNetwork)) :
    (refreshData (Except.error e) netResult s).isPresentingError = true
    ∧ (refreshData (Except.error e) netResult s).presentableError
        = ErrorBottomModalViewModel.alertError e
    ∧ (refreshData (Except.error e) netResult s).keysData = s.keysData
    ∧ (refreshData (Except.error e) netResult s).derivedKeys = s.derivedKeys
    ∧ (refreshData (Except.error e) netResult s).keySummary = s.keySummary :=
  ⟨rfl, rfl, rfl, rfl, rfl⟩

/-- C3 counterexample: a failure delivered to the network-selection open
action is dropped silently; the state (and so the error-visible flag) is
unchanged, refuting "no operation silently drops a provider failure". -/
theorem c3_counterexample_network_selection_tap :
    onNetworkSelectionTap (Except.error "timeout") exampleStateEmpty = exampleStateEmpty
    ∧ exampleStateEmpty.isPresentingError = false
    ∧ (onNetworkSelectionTap (Except.error "timeout") exampleStateEmpty).isPresentingError
        = false :=
  ⟨rfl, rfl, rfl⟩

/-- C3 amended: the key-set fetch and the network-list fetch surface provider
failures via the error-visible flag with the failure description, while the
network-selection open action ignores a provider failure entirely. -/
theorem c3_amended_failure_surfacing (s : ViewModelState) (e : String)
    (netResult : Except String (List MmNetwork)) :
    ((refreshData (Except.error e) netResult s).isPresentingError = true
      ∧ (refreshData (Except.error e) netResult s).presentableError
          = ErrorBottomModalViewModel.alertError e)
    ∧ ((refreshNetworks (Except.error e) s).isPresentingError = true
      ∧ (refreshNetworks (Except.error e) s).presentableError
          = ErrorBottomModalViewModel.alertError e)
    ∧ onNetworkSelectionTap (Except.error e) s = s :=
  ⟨⟨rfl, rfl⟩, ⟨rfl, rfl⟩, rfl⟩

/-- C4: after a refresh with a stored key set, the view state is `emptyState`
iff the projected row sequence is empty, and `list` otherwise. -/
theorem c4_view_state_iff_empty (s : ViewModelState) (kd : MKeysNew)
    (h : s.keysData = some kd) :
    ((refreshDerivedKeys s).viewState = ViewState.emptyState
      ↔ (refreshDerivedKeys s).derivedKeys = [])
    ∧ ((refreshDerivedKeys s).viewState = ViewState.list
      ↔ (refreshDerivedKeys s).derivedKeys ≠ []) := by
  have hnew : refreshDerivedKeys s =
      { s with
        derivedKeys := computeDerivedKeys kd s.selectedNetworks
        viewState := if (computeDerivedKeys kd s.selectedNetworks).isEmpty
          then ViewState.emptyState else ViewState.list } := by
    simp [refreshDerivedKeys, h]
  rw [hnew]
  cases hc : computeDerivedKeys kd s.selectedNetworks with
  | nil => simp
  | cons a l => simp

/-- Witness for C4 at the concrete `["//1","//0","//2"]` state. -/
theorem c4_view_state_iff_empty_witness :
    ((refreshDerivedKeys exampleStateC1).viewState = ViewState.emptyState
      ↔ (refreshDerivedKeys exampleStateC1).derivedKeys = [])
    ∧ ((refreshDerivedKeys exampleStateC1).viewState = ViewState.list
      ↔ (refreshDerivedKeys exampleStateC1).derivedKeys ≠ []) :=
  c4_view_state_iff_empty exampleStateC1 exampleKeysC1 rfl

/-- C5: on removal confirmation, a collaborator success emits the dismiss
signal and the `keySetDeleted` completion with state unchanged; a collaborator
failure is a silent no-op with no signal and no error. -/
theorem c5_remove_key_set (removeSeedAction : String → Bool) (s : ViewModelState) :
    (removeSeedAction s.removeSeed = true →
      onRemoveKeySetConfirmationTap removeSeedAction s
        = (s, true, some OnCompletionAction.keySetDeleted))
    ∧ (removeSeedAction s.removeSeed = false →
      onRemoveKeySetConfirmationTap removeSeedAction s = (s, false, none)) := by
  constructor <;> intro h <;> simp [onRemoveKeySetConfirmationTap, h]

/-- Witness for C5 with collaborators that accept and decline. -/
theorem c5_remove_key_set_witness :
    onRemoveKeySetConfirmationTap (fun _ => true) exampleStateEmpty
      = (exampleStateEmpty, true, some OnCompletionAction.keySetDeleted)
    ∧ onRemoveKeySetConfirmationTap (fun _ => false) exampleStateEmpty
      = (exampleStateEmpty, false, none) :=
  ⟨(c5_remove_key_set (fun _ => true) exampleStateEmpty).1 rfl,
   (c5_remove_key_set (fun _ => false) exampleStateEmpty).2 rfl⟩

/-- C6: in selection mode a single tap removes the row when it is a member
and appends it otherwise, and two successive taps restore the original
membership of the selection set. -/
theorem c6_toggle_selection (nav : String → String → Option MKeyDetails)
    (s : ViewModelState) (r : DerivedKeyRowModel)
    (h : s.isPresentingSelectionOverlay = true) :
    (∀ x, x ∈ (onDerivedKeyTap nav r (onDerivedKeyTap nav r s)).selectedKeys
      ↔ x ∈ s.selectedKeys)
    ∧ (r ∈ s.selectedKeys →
        (onDerivedKeyTap nav r s).selectedKeys = s.selectedKeys.filter fun k => k != r)
    ∧ (r ∉ s.selectedKeys →
        (onDerivedKeyTap nav r s).selectedKeys = s.selectedKeys ++ [r]) := by
  have hmem_tap : ∀ (st : ViewModelState), st.isPresentingSelectionOverlay = true →
      (onDerivedKeyTap nav r st).selectedKeys =
        (if st.selectedKeys.contains r then st.selectedKeys.filter (fun k => k != r)
         else st.selectedKeys ++ [r]) := by
    intro st hst
    unfold onDerivedKeyTap
    rw [if_pos hst]
    by_cases hcon : st.selectedKeys.contains r = true
    · rw [if_pos hcon, if_pos hcon]
    · rw [if_neg hcon, if_neg hcon]
  have hflag : (onDerivedKeyTap nav r s).isPresentingSelectionOverlay = true := by
    unfold onDerivedKeyTap
    rw [if_pos h]
    by_cases hcon : s.selectedKeys.contains r = true
    · rw [if_pos hcon]
      exact h
    · rw [if_neg hcon]
      exact h
  refine ⟨?_, ?_, ?_⟩
  · intro x
    rw [hmem_tap _ hflag, hmem_tap _ h]
    by_cases hr : r ∈ s.selectedKeys
    · have hcon : s.selectedKeys.contains r = true := by
        simpa [List.contains] using hr
      rw [if_pos hcon]
      have hnot : r ∉ s.selectedKeys.filter fun k => k != r := by
        simp [List.mem_filter]
      have hnotc : ¬ ((s.selectedKeys.filter fun k => k != r).contains r = true) := by
        simp [List.contains]
      rw [if_neg hnotc]
      by_cases hx : x = r
      · subst hx
        simp [hr]
      · simp [List.mem_append, List.mem_filter, hx]
    · have hcon : ¬ (s.selectedKeys.contains r = true) := by
        simpa [List.contains] using hr
      rw [if_neg hcon]
      have hcon2 : (s.selectedKeys ++ [r]).contains r = true := by
        simp [List.contains]
      rw [if_pos hcon2]
      have hfil : (s.selectedKeys ++ [r]).filter (fun k => k != r) = s.selectedKeys := by
        rw [List.filter_append]
        have h1 : s.selectedKeys.filter (fun k => k != r) = s.selectedKeys :=
          List.filter_eq_self.mpr fun x hx => by
            simp only [bne_iff_ne, ne_eq, decide_eq_true_eq]
            exact fun he => hr (he ▸ hx)
        have h2 : ([r].filter fun k => k != r) = [] := by simp
        rw [h1, h2, List.append_nil]
      rw [hfil]
  · intro hr
    have hcon : s.selectedKeys.contains r = true := by
      simpa [List.contains] using hr
    rw [hmem_tap _ h, if_pos hcon]
  · intro hr
    have hcon : ¬ (s.selectedKeys.contains r = true) := by
      simpa [List.contains] using hr
    rw [hmem_tap _ h, if_neg hcon]

/-- Witness for C6 at a concrete selection-mode state and row. -/
theorem c6_toggle_selection_witness :
    (∀ x, x ∈ (onDerivedKeyTap (fun _ _ => none) exampleRow
        (onDerivedKeyTap (fun _ _ => none) exampleRow exampleStateSelection)).selectedKeys
      ↔ x ∈ exampleStateSelection.selectedKeys)
    ∧ (exampleRow ∈ exampleStateSelection.selectedKeys →
        (onDerivedKeyTap (fun _ _ => none) exampleRow exampleStateSelection).selectedKeys
          = exampleStateSelection.selectedKeys.filter fun k => k != exampleRow)
    ∧ (exampleRow ∉ exampleStateSelection.selectedKeys →
        (onDerivedKeyTap (fun _ _ => none) exampleRow exampleStateSelection).selectedKeys
          = exampleStateSelection.selectedKeys ++ [exampleRow]) :=
  c6_toggle_selection (fun _ _ => none) exampleStateSelection exampleRow rfl

/-- C7: refreshing twice with the same provider data yields the same derived
keys and key summary as refreshing once. -/
theorem c7_refresh_idempotent (s : ViewModelState) (kd : MKeysNew)
    (netResult : Except String (List MmNetwork)) :
    (refreshData (Except.ok kd) netResult (refreshData (Except.ok kd) netResult s)).derivedKeys
      = (refreshData (Except.ok kd) netResult s).derivedKeys
    ∧ (refreshData (Except.ok kd) netResult (refreshData (Except.ok kd) netResult s)).keySummary
      = (refreshData (Except.ok kd) netResult s).keySummary := by
  cases netResult <;> exact ⟨rfl, rfl⟩

/-- C8: tapping a row outside selection mode consults the navigation
collaborator — a declined resolution leaves the state unchanged, a returned
target is presented; in selection mode the same tap toggles the selection
set instead. -/
theorem c8_tap_dispatch (nav : String → String → Option MKeyDetails)
    (s : ViewModelState) (r : DerivedKeyRowModel) :
    (s.isPresentingSelectionOverlay = false →
      (nav s.keyName r.publicKeyDetails = none → onDerivedKeyTap nav r s = s)
      ∧ ∀ kd, nav s.keyName r.publicKeyDetails = some kd →
          (onDerivedKeyTap nav r s).presentedKeyDetails = some kd
          ∧ (onDerivedKeyTap nav r s).presentedPublicKeyDetails
              = some r.publicKeyDetails
          ∧ (onDerivedKeyTap nav r s).isPresentingKeyDetails = true
          ∧ (onDerivedKeyTap nav r s).selectedKeys = s.selectedKeys)
    ∧ (s.isPresentingSelectionOverlay = true →
        (onDerivedKeyTap nav r s).selectedKeys =
          (if s.selectedKeys.contains r then s.selectedKeys.filter (fun k => k != r)
           else s.selectedKeys ++ [r])
        ∧ (onDerivedKeyTap nav r s).presentedKeyDetails = s.presentedKeyDetails
        ∧ (onDerivedKeyTap nav r s).isPresentingKeyDetails = s.isPresentingKeyDetails) := by
  constructor
  · intro hov
    constructor
    · intro hnav
      unfold onDerivedKeyTap
      rw [if_neg (by simp [hov]), hnav]
    · intro kd hnav
      unfold onDerivedKeyTap
      rw [if_neg (by simp [hov]), hnav]
      exact ⟨rfl, rfl, rfl, rfl⟩
  · intro hov
    unfold onDerivedKeyTap
    rw [if_pos hov]
    by_cases hcon : s.selectedKeys.contains r = true
    · rw [if_pos hcon, if_pos hcon]
      exact ⟨rfl, rfl, rfl⟩
    · rw [if_neg hcon, if_neg hcon]
      exact ⟨rfl, rfl, rfl⟩

/-- Witness for C8 with a declining collaborator outside selection mode. -/
theorem c8_tap_dispatch_witness :
    onDerivedKeyTap (fun _ _ => none) exampleRow exampleStateEmpty = exampleStateEmpty :=
  ((c8_tap_dispatch (fun _ _ => none) exampleStateEmpty exampleRow).1 rfl).1 rfl

/-- Re-running the projection never touches the filtering-active flag. -/
theorem refreshDerivedKeys_isFilteringActive (s : ViewModelState) :
    (refreshDerivedKeys s).isFilteringActive = s.isFilteringActive := by
  cases h : s.keysData <;> simp [refreshDerivedKeys, h]

/-- C9: closing the network-selection overlay recomputes `isFilteringActive`
as the non-emptiness of the network filter and re-runs the projection; in the
`{A,B}` key-set scenario with filter `{A}`, only the network-A row remains
and filtering reads active. -/
theorem c9_network_selection_dismissed :
    (∀ s : ViewModelState,
      (onNetworkSelectionDismissed s).isFilteringActive = !s.selectedNetworks.isEmpty
      ∧ onNetworkSelectionDismissed s
          = refreshDerivedKeys
              { s with
                isPresentingNetworkSelection := false
                isFilteringActive := !s.selectedNetworks.isEmpty })
    ∧ ((onNetworkSelectionDismissed exampleStateC9).derivedKeys.map
        fun row => row.keyData.network.networkSpecsKey) = ["A"]
    ∧ (onNetworkSelectionDismissed exampleStateC9).isFilteringActive = true := by
  refine ⟨fun s => ⟨?_, rfl⟩, by decide, by decide⟩
  rw [show onNetworkSelectionDismissed s
      = refreshDerivedKeys
          { s with
            isPresentingNetworkSelection := false
            isFilteringActive := !s.selectedNetworks.isEmpty } from rfl,
    refreshDerivedKeys_isFilteringActive]

/-- C10: with no stored key-set data, the derived-key and key-summary
refreshes are no-ops, and a freshly constructed controller without key-set
data renders `viewState = list` with empty derived keys after its initial
render pass, whatever the network fetch returned. -/
theorem c10_nil_keys_data_no_op :
    (∀ s : ViewModelState, s.keysData = none →
      refreshDerivedKeys s = s ∧ refreshKeySummary s = s)
    ∧ (∀ (keyName : String) (sel all : List MmNetwork)
        (netResult : Except String (List MmNetwork)),
        (updateRenderables netResult (initialState keyName none sel all)).viewState
          = ViewState.list
        ∧ (updateRenderables netResult (initialState keyName none sel all)).derivedKeys
          = []) := by
  constructor
  · intro s h
    constructor
    · simp [refreshDerivedKeys, h]
    · simp [refreshKeySummary, h]
  · intro keyName sel all netResult
    cases netResult <;> exact ⟨rfl, rfl⟩

/-- Witness for C10 at the concrete empty-data state. -/
theorem c10_nil_keys_data_no_op_witness :
    refreshDerivedKeys exampleStateEmpty = exampleStateEmpty
    ∧ refreshKeySummary exampleStateEmpty = exampleStateEmpty :=
  c10_nil_keys_data_no_op.1 exampleStateEmpty rfl
